import Mathlib

/-!
Shallow embedding of the PoTE eth-beacon-genesis TEE metadata code
(package beaconutils, file tee.go, together with the sibling build of the
same file and the electra genesis builder/serializer it feeds).

Conventions used throughout:
* Go byte strings are `List Nat` with values below 256 where the Go type
  is `[]byte`; machine-integer conversions are made explicit with `% 2 ^ w`.
* Fallible Go functions returning `(T, error)` become `Except String T`.
* External collaborators (beaconconfig.Config, the dynamic-SSZ codec, the
  root-computation helpers that live outside the embedded files) are
  modelled as records of functions supplied by the caller, exactly at the
  boundary the source uses them.
* The reflection-based header patching is modelled structurally: a header
  is a record with the two optionally-present TEE fields plus an abstract
  `rest` for every other field of the concrete struct.
-/

namespace BeaconGenesis

/-- Byte lists standing for Go `[]byte` values. -/
abbrev Bytes := List Nat

/-- 32-byte roots (phase0.Root / phase0.Hash32). -/
abbrev Root := List Nat

/-- The zero value of a 32-byte root. -/
def zeroRoot : Root := List.replicate 32 0

/-- TEEType is a Go `byte`; SEV = 0, TDX = 1, CCA = 2. -/
abbrev TEEType := Nat

/-- TEETypeSEV represents AMD SEV. -/
def TEETypeSEV : TEEType := 0

/-- TEETypeTDX represents Intel TDX. -/
def TEETypeTDX : TEEType := 1

/-- TEETypeCCA represents ARM CCA. -/
def TEETypeCCA : TEEType := 2

/-- The placeholder vendor used when no configuration override is present. -/
def defaultTEEType : TEEType := TEETypeSEV

/-- Go `unicode.IsSpace` on the Latin-1 code points (the white space
    characters strings.TrimSpace strips in the inputs relevant here). -/
def isGoSpace (c : Char) : Bool :=
  c.toNat == 9 || c.toNat == 10 || c.toNat == 11 || c.toNat == 12 ||
  c.toNat == 13 || c.toNat == 32 || c.toNat == 133 || c.toNat == 160

/-- Go `strings.TrimSpace`, modelled on the character list of the string. -/
def trimSpace (s : List Char) : List Char :=
  ((s.dropWhile isGoSpace).reverse.dropWhile isGoSpace).reverse

/-- Go `strings.ToLower` on the character list (ASCII case mapping, which
    covers every key of the vendor lookup table). -/
def toLowerGo (s : List Char) : List Char := s.map Char.toLower

/-- The teeTypeLookup map: "sev" maps to the default (SEV), "tdx" to TDX,
    "cca" to CCA; every other key is absent. -/
def teeTypeLookup (s : List Char) : Option TEEType :=
  if s = "sev".data then some defaultTEEType
  else if s = "tdx".data then some TEETypeTDX
  else if s = "cca".data then some TEETypeCCA
  else none

/-- TEETypeFromString converts a human-readable vendor identifier (case
    insensitive, surrounding white space ignored) to the matching TEEType;
    unknown identifiers yield `none` (the Go `false` flag). -/
def TEETypeFromString (name : String) : Option TEEType :=
  teeTypeLookup (toLowerGo (trimSpace name.data))

/-- The repeating ASCII marker "PoTE-genesis-TEE" as byte values. -/
def teeQuoteChunk : Bytes := "PoTE-genesis-TEE".data.map Char.toNat

/-- makeTEEQuote from the sibling build: repeat the marker ceil(8192/16)
    times and keep exactly the first 8192 bytes of the result. -/
def makeTEEQuote : Bytes :=
  ((List.replicate ((8192 + teeQuoteChunk.length - 1) / teeQuoteChunk.length)
    teeQuoteChunk).flatten).take 8192

/-- hardcodedTEEQuote after init() ran: an 8192-byte zero buffer overwritten
    by copy(dst, buf[:8192]), where buf[:8192] is the very computation
    `makeTEEQuote` performs (repeat the marker, slice to 8192). copy writes
    min(8192, len(src)) bytes and any tail of the destination stays zero. -/
def hardcodedTEEQuote : Bytes :=
  makeTEEQuote ++ List.replicate (8192 - makeTEEQuote.length) 0

/-- The numeric field kinds distinguished by the reflect switches in
    applyTEEType and writeArray. Go `uint` and `uintptr` are 64-bit in this
    build and behave as uint64. Any other reflect kind is `otherKind` and is
    never written. -/
inductive FieldKind
  | uint8
  | uint16
  | uint32
  | uint64
  | int8
  | int16
  | int32
  | int64
  | otherKind
deriving DecidableEq

/-- A reflected struct field: its kind, whether reflect reports CanSet, and
    its current contents (Int so that signed kinds can hold negatives). -/
structure TypeField where
  kind : FieldKind
  canSet : Bool
  value : Int
deriving DecidableEq

/-- reflect Value.SetUint semantics: store x truncated to the field width. -/
def setUintVal (w : Nat) (x : Nat) : Int := Int.ofNat (x % 2 ^ w)

/-- reflect Value.SetInt semantics: store x (here always a byte-sized
    non-negative quantity) truncated to the signed field width. -/
def setIntVal (w : Nat) (x : Nat) : Int :=
  let r := x % 2 ^ w
  if r < 2 ^ (w - 1) then Int.ofNat r else Int.ofNat r - Int.ofNat (2 ^ w)

/-- applyTEEType: write uint64(teeType) into the field if it is present and
    settable, respecting the field's own width and signedness; fields of any
    other kind are left untouched. `none` models a field the struct does not
    expose (reflect's invalid Value). -/
def applyTEEType (field : Option TypeField) (teeType : TEEType) : Option TypeField :=
  match field with
  | none => none
  | some f =>
    if !f.canSet then some f
    else
      let value := teeType % 2 ^ 8
      match f.kind with
      | .uint8 => some { f with value := setUintVal 8 value }
      | .uint16 => some { f with value := setUintVal 16 value }
      | .uint32 => some { f with value := setUintVal 32 value }
      | .uint64 => some { f with value := setUintVal 64 value }
      | .int8 => some { f with value := setIntVal 8 value }
      | .int16 => some { f with value := setIntVal 16 value }
      | .int32 => some { f with value := setIntVal 32 value }
      | .int64 => some { f with value := setIntVal 64 value }
      | .otherKind => some f

/-- The shapes the quote field can have: a fixed-length array of reflected
    elements, a slice (whose element kind may or may not be uint8), or any
    other kind, which is never written. -/
inductive QuoteVal
  | arrayOf (elems : List TypeField)
  | sliceOf (elemIsByte : Bool) (bytes : Bytes)
  | otherVal
deriving DecidableEq

/-- The reflected quote field: CanSet flag plus its shaped contents. -/
structure QuoteField where
  canSet : Bool
  val : QuoteVal
deriving DecidableEq

/-- Byte i of the source quote, zero beyond its length (writeArray's
    `if i < len(teeQuote)` branch). -/
def quoteByteAt (teeQuote : Bytes) (i : Nat) : Nat := (teeQuote[i]?).getD 0

/-- One iteration of writeArray's loop body on element i. -/
def writeElem (teeQuote : Bytes) (i : Nat) (e : TypeField) : TypeField :=
  if !e.canSet then e
  else
    let value := quoteByteAt teeQuote i % 2 ^ 8
    match e.kind with
    | .uint8 => { e with value := setUintVal 8 value }
    | .uint16 => { e with value := setUintVal 16 value }
    | .uint32 => { e with value := setUintVal 32 value }
    | .uint64 => { e with value := setUintVal 64 value }
    | .int8 => { e with value := setIntVal 8 value }
    | .int16 => { e with value := setIntVal 16 value }
    | .int32 => { e with value := setIntVal 32 value }
    | .int64 => { e with value := setIntVal 64 value }
    | .otherKind => e

/-- writeArray's loop from index i to the end of the array. -/
def writeArrayAux (teeQuote : Bytes) : Nat → List TypeField → List TypeField
  | _, [] => []
  | i, e :: es => writeElem teeQuote i e :: writeArrayAux teeQuote (i + 1) es

/-- writeArray: write each array position from the quote (zero-filled past
    the quote's end), skipping elements that cannot be set. -/
def writeArray (elems : List TypeField) (teeQuote : Bytes) : List TypeField :=
  writeArrayAux teeQuote 0 elems

/-- applyTEEQuote: arrays are overwritten elementwise; byte slices are
    replaced wholesale by a fresh copy of the quote; a slice of any other
    element kind, any other field kind, an unsettable field, or an absent
    field is left untouched. -/
def applyTEEQuote (field : Option QuoteField) (teeQuote : Bytes) : Option QuoteField :=
  match field with
  | none => none
  | some f =>
    if !f.canSet then some f
    else
      match f.val with
      | .arrayOf elems => some { f with val := .arrayOf (writeArray elems teeQuote) }
      | .sliceOf elemIsByte bytes =>
        if elemIsByte then some { f with val := .sliceOf true (teeQuote.map (· % 2 ^ 8)) }
        else some { f with val := .sliceOf elemIsByte bytes }
      | .otherVal => some f

/-- A header value as the injector sees it: the two conventionally named
    TEE fields, each present or absent depending on the linked build of the
    header type, plus an abstract `rest` holding every other field.
    FieldByName touches only the two dedicated fields. -/
structure Header (α : Type) where
  proposerTEEType : Option TypeField
  proposerTEEQuote : Option QuoteField
  rest : α
deriving DecidableEq

/-- applyTEEToHeader. The `Option` on the header collapses the three guards
    of the source (nil interface, non-pointer value, nil pointer), all of
    which return without touching anything; a `some` header is an
    addressable struct whose fields are examined by name. -/
def applyTEEToHeader {α : Type} (header : Option (Header α)) (teeType : TEEType)
    (teeQuote : Bytes) : Option (Header α) :=
  match header with
  | none => none
  | some h =>
    some { h with proposerTEEType := applyTEEType h.proposerTEEType teeType,
                  proposerTEEQuote := applyTEEQuote h.proposerTEEQuote teeQuote }

/-- ApplyDefaultTEEToHeader: populate the TEE fields with the fixed default
    vendor and the hardcoded quote. -/
def ApplyDefaultTEEToHeader {α : Type} (header : Option (Header α)) : Option (Header α) :=
  applyTEEToHeader header defaultTEEType hardcodedTEEQuote

/-- The boundary of the external beaconconfig.Config collaborator: named
    string values and named unsigned-integer values. GetUintDefault returns
    a uint64, hence the reduction modulo 2 ^ 64. -/
structure Config where
  getString : String → Option String
  getUint : String → Option Nat

/-- cfg.GetUintDefault key dflt: the stored value if present, else dflt. -/
def Config.getUintDefault (cfg : Config) (key : String) (dflt : Nat) : Nat :=
  ((cfg.getUint key).getD dflt) % 2 ^ 64

/-- The mnemonics branch of GetGenesisProposerTEEFields: a present,
    non-empty TEE_VENDOR_FROM_MNEMONICS string that parses as a vendor name;
    a missing string, an empty string, or an unknown name all fall through
    (the unknown name is only logged). -/
def mnemonicVendor (cfg : Config) : Option TEEType :=
  match cfg.getString "TEE_VENDOR_FROM_MNEMONICS" with
  | some vendorTypeStr =>
    if vendorTypeStr ≠ "" then TEETypeFromString vendorTypeStr else none
  | none => none

/-- GetGenesisProposerTEEFields: prefer the vendor from mnemonics; otherwise
    range-check TEE_VENDOR (default 0) and then TEE_PROPOSER_VENDOR
    (default TEE_VENDOR) against [0,2]. The quote is always the hardcoded
    8192-byte value; the returned vendor is cast to a byte. -/
def GetGenesisProposerTEEFields (cfg : Config) : Except String (TEEType × Bytes) :=
  let quoteBytes := hardcodedTEEQuote
  match mnemonicVendor cfg with
  | some proposerVendor => .ok (proposerVendor % 2 ^ 8, quoteBytes)
  | none =>
    let defaultVendor := cfg.getUintDefault "TEE_VENDOR" 0
    if defaultVendor < 0 ∨ defaultVendor > 2 then
      .error s!"invalid TEE_VENDOR value: {defaultVendor} (must be between 0 and 2)"
    else
      let proposerVendor := cfg.getUintDefault "TEE_PROPOSER_VENDOR" defaultVendor
      if proposerVendor < 0 ∨ proposerVendor > 2 then
        .error s!"invalid TEE_PROPOSER_VENDOR value: {proposerVendor} (must be between 0 and 2)"
      else
        .ok (proposerVendor % 2 ^ 8, quoteBytes)

/-- ApplyTEEToHeaderFromConfig: resolve the vendor and quote from the
    configuration and apply them; a nil config or a resolver error falls
    back to the defaults instead of propagating. -/
def ApplyTEEToHeaderFromConfig {α : Type} (header : Option (Header α))
    (cfg : Option Config) : Option (Header α) :=
  match cfg with
  | none => ApplyDefaultTEEToHeader header
  | some c =>
    match GetGenesisProposerTEEFields c with
    | .error _ => ApplyDefaultTEEToHeader header
    | .ok (teeType, teeQuote) => applyTEEToHeader header teeType teeQuote

/-- Opaque validator records produced by the external validator decoder. -/
abbrev Validator := List Nat

/-- Opaque sync-committee value produced by the external helper. -/
abbrev SyncCommittee := List Nat

/-- Opaque fork record produced by GetStateForkConfig. -/
abbrev ForkData := List Nat

/-- Opaque execution-layer transactions and withdrawals as seen here. -/
abbrev Transaction := List Nat

/-- Opaque withdrawal record of the source block. -/
abbrev Withdrawal := List Nat

/-- The execution-layer source block, restricted to the getters BuildState
    reads. `baseFee` is the base fee as a natural number; blobGasUsed and
    excessBlobGas are nil-able pointers, hence `Option`. -/
structure Block where
  parentHash : Root
  coinbase : Bytes
  stateRoot : Root
  receiptHash : Root
  bloom : Bytes
  number : Nat
  gasLimit : Nat
  gasUsed : Nat
  time : Nat
  extra : Bytes
  baseFee : Nat
  blockHash : Root
  transactions : List Transaction
  withdrawals : Option (List Withdrawal)
  blobGasUsed : Option Nat
  excessBlobGas : Option Nat

/-- The deneb ExecutionPayloadHeader fields BuildState populates. -/
structure ExecutionPayloadHeader where
  parentHash : Root
  feeRecipient : Bytes
  stateRoot : Root
  receiptsRoot : Root
  logsBloom : Bytes
  blockNumber : Nat
  gasLimit : Nat
  gasUsed : Nat
  timestamp : Nat
  extraData : Bytes
  baseFeePerGas : Nat
  blockHash : Root
  transactionsRoot : Root
  withdrawalsRoot : Root
  blobGasUsed : Nat
  excessBlobGas : Nat

/-- The skeleton genesis block body whose hash-tree root is requested:
    zeroed ETH1 data and a zeroed sync-aggregate bit mask of the configured
    length (its remaining fields are zero values and carry no information). -/
structure BeaconBlockBodySkeleton where
  eth1BlockHash : Bytes
  syncCommitteeBits : Bytes

/-- The non-TEE fields of the phase0 BeaconBlockHeader the builder creates:
    everything is zero except the body root. -/
structure BeaconBlockHeaderCore where
  slot : Nat
  proposerIndex : Nat
  parentRoot : Root
  stateRoot : Root
  bodyRoot : Root
deriving DecidableEq

/-- The external collaborators BuildState calls out to: the root-computation
    helpers, the validator/balance/randao helpers and the fork config. Each
    is an arbitrary function of the data the builder hands it. -/
structure BuilderExt where
  computeWithdrawalsRoot : List Withdrawal → Except String Root
  computeTransactionsRoot : List Transaction → Except String Root
  computeDepositRoot : Except String Root
  hashBodyRoot : BeaconBlockBodySkeleton → Except String Root
  genesisValidators : List Validator × Root
  genesisSyncCommittee : List Validator → Root → Except String SyncCommittee
  genesisBalances : List Nat
  randomMixes : List Root
  stateForkConfig : ForkData

/-- The ETH1Data sub-record of the state. -/
structure ETH1Data where
  depositRoot : Root
  depositCount : Nat
  blockHash : Bytes

/-- A phase0 Checkpoint (zero-valued at genesis). -/
structure Checkpoint where
  epoch : Nat
  root : Root

/-- The electra BeaconState fields the builder explicitly populates (every
    omitted Go field is a zero value never read by the embedded code). -/
structure ElectraState where
  genesisTime : Nat
  genesisValidatorsRoot : Root
  fork : ForkData
  latestBlockHeader : Option (Header BeaconBlockHeaderCore)
  blockRoots : List Root
  stateRoots : List Root
  eth1Data : ETH1Data
  justificationBits : Bytes
  previousJustifiedCheckpoint : Checkpoint
  currentJustifiedCheckpoint : Checkpoint
  finalizedCheckpoint : Checkpoint
  randaoMixes : List Root
  validators : List Validator
  balances : List Nat
  slashings : List Nat
  previousEpochParticipation : List Nat
  currentEpochParticipation : List Nat
  inactivityScores : List Nat
  currentSyncCommittee : SyncCommittee
  nextSyncCommittee : SyncCommittee
  latestExecutionPayloadHeader : ExecutionPayloadHeader

/-- spec.DataVersion of the attestantio client. -/
inductive DataVersion
  | phase0
  | altair
  | bellatrix
  | capella
  | deneb
  | electra
deriving DecidableEq

/-- The lowercase rendering DataVersion.String() produces. -/
def DataVersion.printName : DataVersion → String
  | .phase0 => "phase0"
  | .altair => "altair"
  | .bellatrix => "bellatrix"
  | .capella => "capella"
  | .deneb => "deneb"
  | .electra => "electra"

/-- spec.VersionedBeaconState: the version tag plus the electra variant
    (the only one this builder populates; nil for the others). -/
structure VersionedBeaconState where
  version : DataVersion
  electra : Option ElectraState

/-- The TEE-field shape of the linked phase0.BeaconBlockHeader type: whether
    each of the two extension fields exists on this build, and with which
    kind/shape (their contents start as Go zero values). -/
abbrev HeaderShape := Option TypeField × Option QuoteField

/-- The deneb execution payload header assembled from the source block and
    the two computed roots. The base fee is reduced to the uint256 range. -/
def execHeaderOf (gb : Block) (transactionsRoot withdrawalsRoot : Root)
    (blobGasUsed excessBlobGas : Nat) : ExecutionPayloadHeader :=
  { parentHash := gb.parentHash
  , feeRecipient := gb.coinbase
  , stateRoot := gb.stateRoot
  , receiptsRoot := gb.receiptHash
  , logsBloom := gb.bloom
  , blockNumber := gb.number
  , gasLimit := gb.gasLimit
  , gasUsed := gb.gasUsed
  , timestamp := gb.time
  , extraData := gb.extra
  , baseFeePerGas := gb.baseFee % 2 ^ 256
  , blockHash := gb.blockHash
  , transactionsRoot := transactionsRoot
  , withdrawalsRoot := withdrawalsRoot
  , blobGasUsed := blobGasUsed
  , excessBlobGas := excessBlobGas }

/-- The fully populated genesis state, given the execution header, the
    deposit and body roots and the sync committee. Mirrors the electra
    BeaconState literal of BuildState, including the TEE injection into the
    freshly built latest block header. -/
def genesisStateOf (cfg : Config) (ext : BuilderExt) (shape : HeaderShape) (gb : Block)
    (execHeader : ExecutionPayloadHeader) (depositRoot bodyRoot : Root)
    (syncCommittee : SyncCommittee) : ElectraState :=
  let clValidators := ext.genesisValidators.1
  let validatorsRoot := ext.genesisValidators.2
  let genesisDelay := cfg.getUintDefault "GENESIS_DELAY" 604800
  let blocksPerHistoricalRoot := cfg.getUintDefault "SLOTS_PER_HISTORICAL_ROOT" 8192
  let epochsPerSlashingVector := cfg.getUintDefault "EPOCHS_PER_SLASHINGS_VECTOR" 8192
  let minGenesisTime0 := cfg.getUintDefault "MIN_GENESIS_TIME" 0
  let minGenesisTime := if minGenesisTime0 = 0 then gb.time else minGenesisTime0
  let header0 : Header BeaconBlockHeaderCore :=
    { proposerTEEType := shape.1
    , proposerTEEQuote := shape.2
    , rest := { slot := 0, proposerIndex := 0, parentRoot := zeroRoot,
                stateRoot := zeroRoot, bodyRoot := bodyRoot } }
  { genesisTime := (minGenesisTime + genesisDelay) % 2 ^ 64
  , genesisValidatorsRoot := validatorsRoot
  , fork := ext.stateForkConfig
  , latestBlockHeader := ApplyTEEToHeaderFromConfig (some header0) (some cfg)
  , blockRoots := List.replicate blocksPerHistoricalRoot zeroRoot
  , stateRoots := List.replicate blocksPerHistoricalRoot zeroRoot
  , eth1Data := { depositRoot := depositRoot, depositCount := 0, blockHash := gb.blockHash }
  , justificationBits := List.replicate 1 0
  , previousJustifiedCheckpoint := { epoch := 0, root := zeroRoot }
  , currentJustifiedCheckpoint := { epoch := 0, root := zeroRoot }
  , finalizedCheckpoint := { epoch := 0, root := zeroRoot }
  , randaoMixes := ext.randomMixes
  , validators := clValidators
  , balances := ext.genesisBalances
  , slashings := List.replicate epochsPerSlashingVector 0
  , previousEpochParticipation := List.replicate clValidators.length 0
  , currentEpochParticipation := List.replicate clValidators.length 0
  , inactivityScores := List.replicate clValidators.length 0
  , currentSyncCommittee := syncCommittee
  , nextSyncCommittee := syncCommittee
  , latestExecutionPayloadHeader := execHeader }

/-- Outcome of a build: the returned state or error, together with the list
    of sub-root computations that were attempted, in order. -/
abbrev BuildOut := Except String VersionedBeaconState × List String

/-- ceil(SYNC_COMMITTEE_SIZE / 8): the byte length of the zeroed
    sync-aggregate bit mask. -/
def syncCommitteeBitsLen (cfg : Config) : Nat :=
  if cfg.getUintDefault "SYNC_COMMITTEE_SIZE" 512 % 8 ≠ 0 then
    cfg.getUintDefault "SYNC_COMMITTEE_SIZE" 512 / 8 + 1
  else
    cfg.getUintDefault "SYNC_COMMITTEE_SIZE" 512 / 8

/-- The skeleton genesis block body whose root is requested: zeroed ETH1
    block hash and a zeroed sync-committee mask of the configured length. -/
def genesisBodySkeleton (cfg : Config) : BeaconBlockBodySkeleton :=
  { eth1BlockHash := List.replicate 32 0
  , syncCommitteeBits := List.replicate (syncCommitteeBitsLen cfg) 0 }

/-- The extra-data rejection message. -/
def extraDataMsg (n : Nat) : String := s!"extra data is {n} bytes, max is 32"

/-- Stage of BuildState after the body root succeeded: get the validators,
    the sync committee, the timing values, and assemble the state. -/
def buildStateFinish (cfg : Config) (ext : BuilderExt) (shape : HeaderShape) (gb : Block)
    (execHeader : ExecutionPayloadHeader) (depositRoot bodyRoot : Root)
    (trace : List String) : BuildOut :=
  match ext.genesisSyncCommittee ext.genesisValidators.1 gb.blockHash with
  | .error e => (.error s!"failed to get genesis sync committee: {e}", trace)
  | .ok syncCommittee =>
    (.ok { version := .electra
         , electra := some (genesisStateOf cfg ext shape gb execHeader depositRoot
             bodyRoot syncCommittee) }, trace)

/-- Stage of BuildState after the deposit root succeeded: request the
    hash-tree root of the skeleton body. -/
def buildStateBody (cfg : Config) (ext : BuilderExt) (shape : HeaderShape) (gb : Block)
    (execHeader : ExecutionPayloadHeader) (depositRoot : Root)
    (trace : List String) : BuildOut :=
  match ext.hashBodyRoot (genesisBodySkeleton cfg) with
  | .error e => (.error s!"failed to compute genesis block body root: {e}", trace ++ ["body"])
  | .ok bodyRoot =>
    buildStateFinish cfg ext shape gb execHeader depositRoot bodyRoot (trace ++ ["body"])

/-- Stage of BuildState after the execution payload header was assembled:
    request the deposit root. -/
def buildStateDeposits (cfg : Config) (ext : BuilderExt) (shape : HeaderShape) (gb : Block)
    (execHeader : ExecutionPayloadHeader) (trace : List String) : BuildOut :=
  match ext.computeDepositRoot with
  | .error e => (.error s!"failed to compute deposit root: {e}", trace ++ ["deposits"])
  | .ok depositRoot =>
    buildStateBody cfg ext shape gb execHeader depositRoot (trace ++ ["deposits"])

/-- Stage of BuildState after the withdrawals root was settled: request the
    transactions root, then insist on the blob-gas fields before building
    the execution payload header. -/
def buildStateTransactions (cfg : Config) (ext : BuilderExt) (shape : HeaderShape)
    (gb : Block) (withdrawalsRoot : Root) (trace : List String) : BuildOut :=
  match ext.computeTransactionsRoot gb.transactions with
  | .error e =>
    (.error s!"failed to compute transactions root: {e}", trace ++ ["transactions"])
  | .ok transactionsRoot =>
    match gb.blobGasUsed with
    | none =>
      (.error "execution-layer Block has missing blob-gas-used field", trace ++ ["transactions"])
    | some blobGasUsed =>
      match gb.excessBlobGas with
      | none =>
        (.error "execution-layer Block has missing excess-blob-gas field",
         trace ++ ["transactions"])
      | some excessBlobGas =>
        buildStateDeposits cfg ext shape gb
          (execHeaderOf gb transactionsRoot withdrawalsRoot blobGasUsed excessBlobGas)
          (trace ++ ["transactions"])

/-- The source block of the build: an explicitly supplied shadow-fork block
    takes precedence over the execution-layer genesis block. -/
def genesisBlockOf (shadowForkBlock : Option Block) (elGenesisBlock : Block) : Block :=
  match shadowForkBlock with
  | some b => b
  | none => elGenesisBlock

/-- BuildState of the electra builder. Extra data is capped at 32 bytes;
    the withdrawals root is computed only when withdrawals are present (the
    zero root otherwise). The second component records which sub-root
    computations were attempted, in order. -/
def BuildState (cfg : Config) (ext : BuilderExt) (shape : HeaderShape)
    (shadowForkBlock : Option Block) (elGenesisBlock : Block) : BuildOut :=
  if 32 < (genesisBlockOf shadowForkBlock elGenesisBlock).extra.length then
    (.error (extraDataMsg (genesisBlockOf shadowForkBlock elGenesisBlock).extra.length), [])
  else
    match (genesisBlockOf shadowForkBlock elGenesisBlock).withdrawals with
    | some ws =>
      match ext.computeWithdrawalsRoot ws with
      | .error e => (.error s!"failed to compute withdrawals root: {e}", ["withdrawals"])
      | .ok wRoot =>
        buildStateTransactions cfg ext shape (genesisBlockOf shadowForkBlock elGenesisBlock)
          wRoot ["withdrawals"]
    | none =>
      buildStateTransactions cfg ext shape (genesisBlockOf shadowForkBlock elGenesisBlock)
        zeroRoot []

/-- http.ContentType as used here: SSZ, JSON, or any other member of the
    external enumeration (carrying its display name). -/
inductive ContentType
  | ssz
  | json
  | otherContent (name : String)
deriving DecidableEq

/-- The external dynamic-SSZ / JSON codec boundary used by Serialize; both
    marshal the possibly-nil electra state pointer. -/
structure SerializerExt where
  marshalStateSSZ : Option ElectraState → Except String Bytes
  marshalStateJSON : Option ElectraState → Except String Bytes

/-- The serializer's version rejection message. -/
def unsupportedVersionMsg (v : DataVersion) : String :=
  let vname := v.printName
  s!"unsupported version: {vname}"

/-- The serializer's content-type rejection message. -/
def unsupportedContentTypeMsg (cname : String) : String :=
  s!"unsupported content type: {cname}"

/-- Serialize of the electra builder: insist on the electra version tag,
    then delegate to the SSZ codec (content type SSZ) or the JSON encoder
    (content type JSON); any other content type is unsupported. The size
    and offset inspections of the source are log-only and do not appear in
    the value semantics. -/
def Serialize (ext : SerializerExt) (state : VersionedBeaconState)
    (contentType : ContentType) : Except String Bytes :=
  if state.version ≠ DataVersion.electra then
    .error (unsupportedVersionMsg state.version)
  else
    match contentType with
    | .ssz =>
      match ext.marshalStateSSZ state.electra with
      | .error err => .error err
      | .ok sszBytes => .ok sszBytes
    | .json => ext.marshalStateJSON state.electra
    | .otherContent cname => .error (unsupportedContentTypeMsg cname)

/-! ### Helper lemmas -/

/-- Every vendor tag the lookup table can produce is at most 2. -/
theorem teeTypeLookup_le_two {s : List Char} {v : TEEType}
    (h : teeTypeLookup s = some v) : v ≤ 2 := by
  unfold teeTypeLookup at h
  split at h
  · cases h; decide
  · split at h
    · cases h; decide
    · split at h
      · cases h; decide
      · cases h

/-- Every vendor tag TEETypeFromString can produce is at most 2. -/
theorem TEETypeFromString_le_two {s : String} {v : TEEType}
    (h : TEETypeFromString s = some v) : v ≤ 2 :=
  teeTypeLookup_le_two h

/-- The marker bytes, concretely. -/
theorem teeQuoteChunk_eq :
    teeQuoteChunk =
      [80, 111, 84, 69, 45, 103, 101, 110, 101, 115, 105, 115, 45, 84, 69, 69] := by
  decide

/-- Indexing into the flattening of n copies of cs wraps around cs. -/
theorem getElem?_flatten_replicate {α : Type} (cs : List α) (n i : Nat)
    (h : i < n * cs.length) :
    ((List.replicate n cs).flatten)[i]? = cs[i % cs.length]? := by
  induction n generalizing i with
  | zero => simp at h
  | succ m ih =>
    rw [List.replicate_succ, List.flatten_cons]
    by_cases hi : i < cs.length
    · rw [List.getElem?_append_left hi, Nat.mod_eq_of_lt hi]
    · push_neg at hi
      have hmul : (m + 1) * cs.length = m * cs.length + cs.length :=
        Nat.succ_mul m cs.length
      rw [List.getElem?_append_right hi, ih (i - cs.length) (by omega)]
      rw [Nat.mod_eq_sub_mod hi]

/-- The synthesized quote is 8192 bytes long. -/
theorem makeTEEQuote_length : makeTEEQuote.length = 8192 := by
  have hlen : teeQuoteChunk.length = 16 := by rw [teeQuoteChunk_eq]; rfl
  unfold makeTEEQuote
  rw [List.length_take, List.length_flatten, List.map_replicate, List.sum_replicate, hlen]
  simp [smul_eq_mul]

/-- The hardcoded quote (zero buffer + copy) and the synthesized quote are
    byte-identical: the copy covers the whole buffer, no zero tail remains. -/
theorem hardcodedTEEQuote_eq_makeTEEQuote : hardcodedTEEQuote = makeTEEQuote := by
  unfold hardcodedTEEQuote
  rw [makeTEEQuote_length]
  simp

/-- Byte i of the synthesized quote is byte i mod 16 of the marker. -/
theorem makeTEEQuote_getElem? (i : Nat) (h : i < 8192) :
    makeTEEQuote[i]? = teeQuoteChunk[i % teeQuoteChunk.length]? := by
  have hlen : teeQuoteChunk.length = 16 := by rw [teeQuoteChunk_eq]; rfl
  unfold makeTEEQuote
  rw [List.getElem?_take_of_lt h]
  exact getElem?_flatten_replicate teeQuoteChunk _ i (by rw [hlen]; omega)

/-- applyTEEType writes a value that does not depend on the previous field
    contents, so a second identical application changes nothing. -/
theorem applyTEEType_idem (field : Option TypeField) (t : TEEType) :
    applyTEEType (applyTEEType field t) t = applyTEEType field t := by
  cases field with
  | none => rfl
  | some f =>
    by_cases hc : f.canSet
    · cases hk : f.kind <;> simp [applyTEEType, hc, hk]
    · simp [applyTEEType, hc]

/-- writeElem leaves the CanSet flag in place. -/
theorem writeElem_canSet (q : Bytes) (i : Nat) (e : TypeField) :
    (writeElem q i e).canSet = e.canSet := by
  by_cases hc : e.canSet
  · cases hk : e.kind <;> simp [writeElem, hc, hk]
  · simp [writeElem, hc]

/-- writeElem leaves the field kind in place. -/
theorem writeElem_kind (q : Bytes) (i : Nat) (e : TypeField) :
    (writeElem q i e).kind = e.kind := by
  by_cases hc : e.canSet
  · cases hk : e.kind <;> simp [writeElem, hc, hk]
  · simp [writeElem, hc]

/-- writeElem is idempotent at a fixed index and quote. -/
theorem writeElem_idem (q : Bytes) (i : Nat) (e : TypeField) :
    writeElem q i (writeElem q i e) = writeElem q i e := by
  by_cases hc : e.canSet
  · cases hk : e.kind <;> simp [writeElem, hc, hk]
  · simp [writeElem, hc]

/-- The array-writing loop is idempotent. -/
theorem writeArrayAux_idem (q : Bytes) (i : Nat) (es : List TypeField) :
    writeArrayAux q i (writeArrayAux q i es) = writeArrayAux q i es := by
  induction es generalizing i with
  | nil => rfl
  | cons e es ih => simp [writeArrayAux, writeElem_idem, ih]

/-- applyTEEQuote is idempotent at a fixed quote. -/
theorem applyTEEQuote_idem (field : Option QuoteField) (q : Bytes) :
    applyTEEQuote (applyTEEQuote field q) q = applyTEEQuote field q := by
  cases field with
  | none => rfl
  | some f =>
    by_cases hc : f.canSet
    · cases hv : f.val with
      | arrayOf elems => simp [applyTEEQuote, hc, hv, writeArray, writeArrayAux_idem]
      | sliceOf b bs =>
        by_cases hb : b <;> simp [applyTEEQuote, hc, hv, hb]
      | otherVal => simp [applyTEEQuote, hc, hv]
    · simp [applyTEEQuote, hc]

/-! ### Claim theorems -/

/-- C3: applying the metadata injector twice in succession with the same
    resolved vendor tag and attestation blob leaves the header in the same
    final state as applying it once. -/
theorem injector_idempotent {α : Type} (header : Option (Header α)) (t : TEEType)
    (q : Bytes) :
    applyTEEToHeader (applyTEEToHeader header t q) t q = applyTEEToHeader header t q := by
  cases header with
  | none => rfl
  | some h => simp [applyTEEToHeader, applyTEEType_idem, applyTEEQuote_idem]

/-- C4: an absent/invalid header reference is left alone with no error; a
    header exposing neither TEE field is returned unchanged; a header
    exposing exactly one of the two fields has only that field written,
    the other TEE field and every remaining field (`rest`) untouched. -/
theorem injector_structural_tolerance {α : Type} (t : TEEType) (q : Bytes) :
    applyTEEToHeader (none : Option (Header α)) t q = none ∧
    (∀ r : α, applyTEEToHeader (some ⟨none, none, r⟩) t q = some ⟨none, none, r⟩) ∧
    (∀ (f : TypeField) (r : α),
      applyTEEToHeader (some ⟨some f, none, r⟩) t q =
        some ⟨applyTEEType (some f) t, none, r⟩) ∧
    (∀ (g : QuoteField) (r : α),
      applyTEEToHeader (some ⟨none, some g, r⟩) t q =
        some ⟨none, applyTEEQuote (some g) q, r⟩) :=
  ⟨rfl, fun _ => rfl, fun _ _ => rfl, fun _ _ => rfl⟩

/-- C5: TEETypeFromString trims surrounding white space and lower-cases its
    input, mapping "sev" to tag 0, "tdx" to tag 1 and "cca" to tag 2, and
    reports not-found for every other string instead of a default tag. -/
theorem vendor_name_resolution :
    (∀ s : String, toLowerGo (trimSpace s.data) = "sev".data →
      TEETypeFromString s = some TEETypeSEV) ∧
    (∀ s : String, toLowerGo (trimSpace s.data) = "tdx".data →
      TEETypeFromString s = some TEETypeTDX) ∧
    (∀ s : String, toLowerGo (trimSpace s.data) = "cca".data →
      TEETypeFromString s = some TEETypeCCA) ∧
    (∀ s : String, toLowerGo (trimSpace s.data) ≠ "sev".data →
      toLowerGo (trimSpace s.data) ≠ "tdx".data →
      toLowerGo (trimSpace s.data) ≠ "cca".data →
      TEETypeFromString s = none) := by
  refine ⟨fun s h => ?_, fun s h => ?_, fun s h => ?_, fun s h1 h2 h3 => ?_⟩
  · unfold TEETypeFromString
    rw [h]
    decide
  · unfold TEETypeFromString
    rw [h]
    decide
  · unfold TEETypeFromString
    rw [h]
    decide
  · unfold TEETypeFromString teeTypeLookup
    rw [if_neg h1, if_neg h2, if_neg h3]

/-- Witness for C5 at concrete inputs: mixed case with white space resolves,
    an unknown vendor name reports not-found. -/
theorem vendor_name_resolution_witness :
    TEETypeFromString "  SeV " = some TEETypeSEV ∧ TEETypeFromString "sgx" = none :=
  ⟨vendor_name_resolution.1 "  SeV " (by decide),
   vendor_name_resolution.2.2.2 "sgx" (by decide) (by decide) (by decide)⟩

/-- C6: the built-in attestation blob is exactly 8192 bytes, byte 0 is the
    marker's first character ('P'), byte 8191 is the marker's wrapped-around
    character at that position ('E'), and the two builds' computations of it
    (zero buffer + copy, and slice of the repeated marker) agree bytewise. -/
theorem default_quote_deterministic :
    hardcodedTEEQuote.length = 8192 ∧
    hardcodedTEEQuote[0]? = teeQuoteChunk[0]? ∧
    hardcodedTEEQuote[8191]? = teeQuoteChunk[8191 % teeQuoteChunk.length]? ∧
    hardcodedTEEQuote[0]? = some 80 ∧
    hardcodedTEEQuote[8191]? = some 69 ∧
    hardcodedTEEQuote = makeTEEQuote := by
  have hlen : teeQuoteChunk.length = 16 := by rw [teeQuoteChunk_eq]; rfl
  have h0 : hardcodedTEEQuote[0]? = teeQuoteChunk[0 % teeQuoteChunk.length]? := by
    rw [hardcodedTEEQuote_eq_makeTEEQuote]
    exact makeTEEQuote_getElem? 0 (by omega)
  have h8191 : hardcodedTEEQuote[8191]? = teeQuoteChunk[8191 % teeQuoteChunk.length]? := by
    rw [hardcodedTEEQuote_eq_makeTEEQuote]
    exact makeTEEQuote_getElem? 8191 (by omega)
  refine ⟨by rw [hardcodedTEEQuote_eq_makeTEEQuote, makeTEEQuote_length], ?_, h8191, ?_, ?_,
    hardcodedTEEQuote_eq_makeTEEQuote⟩
  · rw [h0, hlen]
  · rw [h0, hlen, teeQuoteChunk_eq]
    rfl
  · rw [h8191, hlen, teeQuoteChunk_eq]
    rfl

/-- A configuration with no mnemonic vendor and an out-of-range TEE_VENDOR. -/
def cfgVendorOutOfRange : Config :=
  { getString := fun _ => none
  , getUint := fun k => if k = "TEE_VENDOR" then some 7 else none }

/-- A configuration whose mnemonic vendor resolves ("tdx") while TEE_VENDOR
    holds the out-of-range value 5. -/
def cfgMnemonicBesideBadVendor : Config :=
  { getString := fun k => if k = "TEE_VENDOR_FROM_MNEMONICS" then some "tdx" else none
  , getUint := fun k => if k = "TEE_VENDOR" then some 5 else none }

/-- C1 (amended): when the mnemonic vendor source does not resolve, an
    out-of-range TEE_VENDOR fails with the message naming that key and the
    bounds; with TEE_VENDOR in range, an out-of-range TEE_PROPOSER_VENDOR
    fails naming that key; with both in range the resolved proposer vendor
    is returned exactly, along with the hardcoded quote. When the mnemonic
    source resolves, the integer keys are not range-checked at all and the
    mnemonic tag is returned. -/
theorem resolver_range_check (cfg : Config) :
    (∀ v, mnemonicVendor cfg = some v →
      GetGenesisProposerTEEFields cfg = .ok (v, hardcodedTEEQuote)) ∧
    (mnemonicVendor cfg = none →
      (∀ dv, dv = cfg.getUintDefault "TEE_VENDOR" 0 → 2 < dv →
        GetGenesisProposerTEEFields cfg =
          .error s!"invalid TEE_VENDOR value: {dv} (must be between 0 and 2)") ∧
      (∀ pv, pv = cfg.getUintDefault "TEE_PROPOSER_VENDOR" (cfg.getUintDefault "TEE_VENDOR" 0) →
        cfg.getUintDefault "TEE_VENDOR" 0 ≤ 2 → 2 < pv →
        GetGenesisProposerTEEFields cfg =
          .error s!"invalid TEE_PROPOSER_VENDOR value: {pv} (must be between 0 and 2)") ∧
      (∀ pv, pv = cfg.getUintDefault "TEE_PROPOSER_VENDOR" (cfg.getUintDefault "TEE_VENDOR" 0) →
        cfg.getUintDefault "TEE_VENDOR" 0 ≤ 2 → pv ≤ 2 →
        GetGenesisProposerTEEFields cfg = .ok (pv, hardcodedTEEQuote))) := by
  constructor
  · intro v hm
    have hv2 : v ≤ 2 := by
      unfold mnemonicVendor at hm
      split at hm
      · split at hm
        · exact TEETypeFromString_le_two hm
        · cases hm
      · cases hm
    simp only [GetGenesisProposerTEEFields, hm]
    rw [Nat.mod_eq_of_lt (lt_of_le_of_lt hv2 (by norm_num))]
  · intro hm
    refine ⟨fun dv hdv h1 => ?_, fun pv hpv h1 h2 => ?_, fun pv hpv h1 h2 => ?_⟩
    · subst hdv
      simp only [GetGenesisProposerTEEFields, hm]
      rw [if_pos (Or.inr h1)]
    · subst hpv
      simp only [GetGenesisProposerTEEFields, hm]
      rw [if_neg (by omega), if_pos (Or.inr h2)]
    · subst hpv
      simp only [GetGenesisProposerTEEFields, hm]
      rw [if_neg (by omega), if_neg (by omega),
        Nat.mod_eq_of_lt (lt_of_le_of_lt h2 (by norm_num))]

/-- Witness for C1's amended theorem at a concrete configuration: the
    out-of-range TEE_VENDOR 7 fails with the message naming key and bounds. -/
theorem resolver_range_check_witness :
    GetGenesisProposerTEEFields cfgVendorOutOfRange =
      .error "invalid TEE_VENDOR value: 7 (must be between 0 and 2)" := by
  have h := ((resolver_range_check cfgVendorOutOfRange).2 rfl).1 7 (by decide) (by decide)
  rw [h]
  rfl

/-- Counterexample to C1's final clause: with the mnemonic source resolving
    to "tdx", the out-of-range integer 5 supplied as TEE_VENDOR produces no
    range failure; the resolver succeeds with the mnemonic tag. -/
theorem resolver_range_check_counterexample :
    cfgMnemonicBesideBadVendor.getUintDefault "TEE_VENDOR" 0 = 5 ∧ ¬ (5 : Nat) ≤ 2 ∧
    GetGenesisProposerTEEFields cfgMnemonicBesideBadVendor =
      .ok (TEETypeTDX, hardcodedTEEQuote) := by
  refine ⟨by decide, by decide, ?_⟩
  rfl

/-- C10: a nil configuration, and every configuration on which the resolver
    fails, make ApplyTEEToHeaderFromConfig fall back silently to the default
    vendor tag (SEV, 0) and the hardcoded quote instead of propagating the
    error (the function is total, so state building cannot fail here). -/
theorem config_injection_never_fails {α : Type} (header : Option (Header α)) :
    ApplyTEEToHeaderFromConfig header none =
      applyTEEToHeader header TEETypeSEV hardcodedTEEQuote ∧
    (∀ (cfg : Config) (e : String), GetGenesisProposerTEEFields cfg = .error e →
      ApplyTEEToHeaderFromConfig header (some cfg) =
        applyTEEToHeader header TEETypeSEV hardcodedTEEQuote) := by
  constructor
  · rfl
  · intro cfg e he
    simp only [ApplyTEEToHeaderFromConfig, he]
    rfl

/-- Witness for C10 at a concrete header and the concrete failing
    configuration with TEE_VENDOR = 7. -/
theorem config_injection_never_fails_witness :
    ApplyTEEToHeaderFromConfig (some ⟨none, none, (0 : Nat)⟩) (some cfgVendorOutOfRange) =
      applyTEEToHeader (some ⟨none, none, (0 : Nat)⟩) TEETypeSEV hardcodedTEEQuote :=
  (config_injection_never_fails (some ⟨none, none, (0 : Nat)⟩)).2 cfgVendorOutOfRange
    "invalid TEE_VENDOR value: 7 (must be between 0 and 2)" (by rfl)

/-- With blob-gas-used absent, the transactions stage stops after the
    transactions-root attempt: either that root's failure or the
    missing-field rejection, and no later sub-root is attempted. -/
theorem buildStateTransactions_blobNone (cfg : Config) (ext : BuilderExt)
    (shape : HeaderShape) (gb : Block) (wroot : Root) (trace : List String)
    (h : gb.blobGasUsed = none) :
    buildStateTransactions cfg ext shape gb wroot trace =
      (match ext.computeTransactionsRoot gb.transactions with
        | .error e => .error s!"failed to compute transactions root: {e}"
        | .ok _ => .error "execution-layer Block has missing blob-gas-used field",
       trace ++ ["transactions"]) := by
  unfold buildStateTransactions
  cases htx : ext.computeTransactionsRoot gb.transactions <;> simp [htx, h]

/-- With blob-gas-used present but excess-blob-gas absent, the transactions
    stage likewise stops after the transactions-root attempt. -/
theorem buildStateTransactions_excessNone (cfg : Config) (ext : BuilderExt)
    (shape : HeaderShape) (gb : Block) (wroot : Root) (trace : List String)
    (b : Nat) (hb : gb.blobGasUsed = some b) (h : gb.excessBlobGas = none) :
    buildStateTransactions cfg ext shape gb wroot trace =
      (match ext.computeTransactionsRoot gb.transactions with
        | .error e => .error s!"failed to compute transactions root: {e}"
        | .ok _ => .error "execution-layer Block has missing excess-blob-gas field",
       trace ++ ["transactions"]) := by
  unfold buildStateTransactions
  cases htx : ext.computeTransactionsRoot gb.transactions <;> simp [htx, hb, h]

/-- A source block with 0-byte extra data whose blob-gas-used pointer is
    nil (excess-blob-gas present). -/
def blockMissingBlobGas : Block :=
  { parentHash := zeroRoot, coinbase := [], stateRoot := zeroRoot, receiptHash := zeroRoot
  , bloom := [], number := 0, gasLimit := 0, gasUsed := 0, time := 0, extra := []
  , baseFee := 0, blockHash := zeroRoot, transactions := []
  , withdrawals := none, blobGasUsed := none, excessBlobGas := some 0 }

/-- Collaborators whose sub-root computations all succeed with zero roots
    and empty collections. -/
def extOk : BuilderExt :=
  { computeWithdrawalsRoot := fun _ => .ok zeroRoot
  , computeTransactionsRoot := fun _ => .ok zeroRoot
  , computeDepositRoot := .ok zeroRoot
  , hashBodyRoot := fun _ => .ok zeroRoot
  , genesisValidators := ([], zeroRoot)
  , genesisSyncCommittee := fun _ _ => .ok []
  , genesisBalances := []
  , randomMixes := []
  , stateForkConfig := [] }

/-- An empty configuration: every key absent, every default in force. -/
def cfgEmpty : Config := { getString := fun _ => none, getUint := fun _ => none }

/-- Counterexample to C2's ordering clause: on a block whose blob-gas-used
    is missing, BuildState does reject, but only after the transactions
    sub-root computation was attempted (the attempt trace is not empty). -/
theorem builder_reject_order_counterexample :
    (BuildState cfgEmpty extOk (none, none) none blockMissingBlobGas).1 =
      .error "execution-layer Block has missing blob-gas-used field" ∧
    (BuildState cfgEmpty extOk (none, none) none blockMissingBlobGas).2 =
      ["transactions"] :=
  ⟨rfl, rfl⟩

/-- C2 (amended): BuildState rejects over-long extra data before any
    sub-root computation is attempted; it rejects a missing blob-gas-used
    or excess-blob-gas field — with the exact message when the preceding
    root computations succeed — but only after the withdrawals and
    transactions roots were attempted, and before the deposits root or the
    body root is attempted. -/
theorem builder_rejects (cfg : Config) (ext : BuilderExt) (shape : HeaderShape)
    (sfb : Option Block) (blk : Block) :
    (∀ n, n = (genesisBlockOf sfb blk).extra.length → 32 < n →
      BuildState cfg ext shape sfb blk = (.error (extraDataMsg n), [])) ∧
    ((genesisBlockOf sfb blk).extra.length ≤ 32 →
      (genesisBlockOf sfb blk).blobGasUsed = none →
      (∀ st, (BuildState cfg ext shape sfb blk).1 ≠ .ok st) ∧
      "deposits" ∉ (BuildState cfg ext shape sfb blk).2 ∧
      "body" ∉ (BuildState cfg ext shape sfb blk).2) ∧
    ((genesisBlockOf sfb blk).extra.length ≤ 32 →
      ∀ b, (genesisBlockOf sfb blk).blobGasUsed = some b →
      (genesisBlockOf sfb blk).excessBlobGas = none →
      (∀ st, (BuildState cfg ext shape sfb blk).1 ≠ .ok st) ∧
      "deposits" ∉ (BuildState cfg ext shape sfb blk).2 ∧
      "body" ∉ (BuildState cfg ext shape sfb blk).2) ∧
    ((genesisBlockOf sfb blk).extra.length ≤ 32 →
      (∀ ws, (genesisBlockOf sfb blk).withdrawals = some ws →
        ∃ wr, ext.computeWithdrawalsRoot ws = .ok wr) →
      (genesisBlockOf sfb blk).blobGasUsed = none →
      ∀ troot, ext.computeTransactionsRoot (genesisBlockOf sfb blk).transactions = .ok troot →
      (BuildState cfg ext shape sfb blk).1 =
        .error "execution-layer Block has missing blob-gas-used field") ∧
    ((genesisBlockOf sfb blk).extra.length ≤ 32 →
      (∀ ws, (genesisBlockOf sfb blk).withdrawals = some ws →
        ∃ wr, ext.computeWithdrawalsRoot ws = .ok wr) →
      ∀ b, (genesisBlockOf sfb blk).blobGasUsed = some b →
      (genesisBlockOf sfb blk).excessBlobGas = none →
      ∀ troot, ext.computeTransactionsRoot (genesisBlockOf sfb blk).transactions = .ok troot →
      (BuildState cfg ext shape sfb blk).1 =
        .error "execution-layer Block has missing excess-blob-gas field") := by
  refine ⟨?_, ?_, ?_, ?_, ?_⟩
  · intro n hn h32
    subst hn
    unfold BuildState
    rw [if_pos h32]
  · intro hlen hblob
    unfold BuildState
    rw [if_neg (by omega)]
    cases hw : (genesisBlockOf sfb blk).withdrawals with
    | none =>
      rw [buildStateTransactions_blobNone cfg ext shape _ _ _ hblob]
      cases htx : ext.computeTransactionsRoot (genesisBlockOf sfb blk).transactions <;>
        simp [htx]
    | some ws =>
      cases hwr : ext.computeWithdrawalsRoot ws with
      | error e => simp [hwr]
      | ok r =>
        simp only [hwr]
        rw [buildStateTransactions_blobNone cfg ext shape _ _ _ hblob]
        cases htx : ext.computeTransactionsRoot (genesisBlockOf sfb blk).transactions <;>
          simp [htx]
  · intro hlen b hblob hexcess
    unfold BuildState
    rw [if_neg (by omega)]
    cases hw : (genesisBlockOf sfb blk).withdrawals with
    | none =>
      rw [buildStateTransactions_excessNone cfg ext shape _ _ _ b hblob hexcess]
      cases htx : ext.computeTransactionsRoot (genesisBlockOf sfb blk).transactions <;>
        simp [htx]
    | some ws =>
      cases hwr : ext.computeWithdrawalsRoot ws with
      | error e => simp [hwr]
      | ok r =>
        simp only [hwr]
        rw [buildStateTransactions_excessNone cfg ext shape _ _ _ b hblob hexcess]
        cases htx : ext.computeTransactionsRoot (genesisBlockOf sfb blk).transactions <;>
          simp [htx]
  · intro hlen hwith hblob troot htx
    unfold BuildState
    rw [if_neg (by omega)]
    cases hw : (genesisBlockOf sfb blk).withdrawals with
    | none =>
      rw [buildStateTransactions_blobNone cfg ext shape _ _ _ hblob]
      simp [htx]
    | some ws =>
      cases hwr : ext.computeWithdrawalsRoot ws with
      | error e =>
        obtain ⟨wr, hok⟩ := hwith ws hw
        rw [hok] at hwr
        cases hwr
      | ok r =>
        simp only [hwr]
        rw [buildStateTransactions_blobNone cfg ext shape _ _ _ hblob]
        simp [htx]
  · intro hlen hwith b hblob hexcess troot htx
    unfold BuildState
    rw [if_neg (by omega)]
    cases hw : (genesisBlockOf sfb blk).withdrawals with
    | none =>
      rw [buildStateTransactions_excessNone cfg ext shape _ _ _ b hblob hexcess]
      simp [htx]
    | some ws =>
      cases hwr : ext.computeWithdrawalsRoot ws with
      | error e =>
        obtain ⟨wr, hok⟩ := hwith ws hw
        rw [hok] at hwr
        cases hwr
      | ok r =>
        simp only [hwr]
        rw [buildStateTransactions_excessNone cfg ext shape _ _ _ b hblob hexcess]
        simp [htx]

/-- Witness for C2's amended theorem at concrete inputs: a 33-byte extra
    datum is rejected with an empty attempt trace, and the concrete
    missing-blob-gas block yields exactly the missing-field error. -/
theorem builder_rejects_witness :
    BuildState cfgEmpty extOk (none, none) none
      { blockMissingBlobGas with extra := List.replicate 33 0 } =
      (.error (extraDataMsg 33), []) ∧
    (BuildState cfgEmpty extOk (none, none) none blockMissingBlobGas).1 =
      .error "execution-layer Block has missing blob-gas-used field" := by
  constructor
  · exact (builder_rejects cfgEmpty extOk (none, none) none
      { blockMissingBlobGas with extra := List.replicate 33 0 }).1 33 (by rfl) (by omega)
  · exact (builder_rejects cfgEmpty extOk (none, none) none blockMissingBlobGas).2.2.2.1
      (by decide) (fun ws hws => nomatch hws) rfl zeroRoot rfl

/-- A successful finish stage returns the electra-tagged state built by
    genesisStateOf for the sync committee the helper produced. -/
theorem buildStateFinish_ok (cfg : Config) (ext : BuilderExt) (shape : HeaderShape)
    (gb : Block) (eh : ExecutionPayloadHeader) (dr br : Root) (trace : List String)
    (vs : VersionedBeaconState)
    (h : (buildStateFinish cfg ext shape gb eh dr br trace).1 = .ok vs) :
    ∃ sc, vs = { version := .electra
               , electra := some (genesisStateOf cfg ext shape gb eh dr br sc) } := by
  unfold buildStateFinish at h
  cases hsc : ext.genesisSyncCommittee ext.genesisValidators.1 gb.blockHash with
  | error e => simp [hsc] at h
  | ok sc =>
    simp only [hsc] at h
    exact ⟨sc, by simp at h; exact h.symm⟩

/-- A successful body stage factors through a successful body root. -/
theorem buildStateBody_ok (cfg : Config) (ext : BuilderExt) (shape : HeaderShape)
    (gb : Block) (eh : ExecutionPayloadHeader) (dr : Root) (trace : List String)
    (vs : VersionedBeaconState)
    (h : (buildStateBody cfg ext shape gb eh dr trace).1 = .ok vs) :
    ∃ br sc, vs = { version := .electra
                  , electra := some (genesisStateOf cfg ext shape gb eh dr br sc) } := by
  unfold buildStateBody at h
  cases hbr : ext.hashBodyRoot (genesisBodySkeleton cfg) with
  | error e => simp [hbr] at h
  | ok br =>
    simp only [hbr] at h
    obtain ⟨sc, hvs⟩ := buildStateFinish_ok cfg ext shape gb eh dr br _ vs h
    exact ⟨br, sc, hvs⟩

/-- A successful deposits stage factors through a successful deposit root. -/
theorem buildStateDeposits_ok (cfg : Config) (ext : BuilderExt) (shape : HeaderShape)
    (gb : Block) (eh : ExecutionPayloadHeader) (trace : List String)
    (vs : VersionedBeaconState)
    (h : (buildStateDeposits cfg ext shape gb eh trace).1 = .ok vs) :
    ∃ dr br sc, vs = { version := .electra
                     , electra := some (genesisStateOf cfg ext shape gb eh dr br sc) } := by
  unfold buildStateDeposits at h
  cases hdr : ext.computeDepositRoot with
  | error e => simp [hdr] at h
  | ok dr =>
    simp only [hdr] at h
    obtain ⟨br, sc, hvs⟩ := buildStateBody_ok cfg ext shape gb eh dr _ vs h
    exact ⟨dr, br, sc, hvs⟩

/-- A successful transactions stage factors through present blob-gas fields
    and the later stages. -/
theorem buildStateTransactions_ok (cfg : Config) (ext : BuilderExt) (shape : HeaderShape)
    (gb : Block) (wroot : Root) (trace : List String) (vs : VersionedBeaconState)
    (h : (buildStateTransactions cfg ext shape gb wroot trace).1 = .ok vs) :
    ∃ eh dr br sc, vs = { version := .electra
                        , electra := some (genesisStateOf cfg ext shape gb eh dr br sc) } := by
  unfold buildStateTransactions at h
  cases htx : ext.computeTransactionsRoot gb.transactions with
  | error e => simp [htx] at h
  | ok troot =>
    simp only [htx] at h
    cases hbg : gb.blobGasUsed with
    | none => simp [hbg] at h
    | some bgu =>
      simp only [hbg] at h
      cases heb : gb.excessBlobGas with
      | none => simp [heb] at h
      | some ebg =>
        simp only [heb] at h
        obtain ⟨dr, br, sc, hvs⟩ := buildStateDeposits_ok cfg ext shape gb _ _ vs h
        exact ⟨_, dr, br, sc, hvs⟩

/-- Every state BuildState returns successfully is the electra-tagged state
    genesisStateOf assembles for the selected source block. -/
theorem BuildState_ok (cfg : Config) (ext : BuilderExt) (shape : HeaderShape)
    (sfb : Option Block) (blk : Block) (vs : VersionedBeaconState)
    (h : (BuildState cfg ext shape sfb blk).1 = .ok vs) :
    ∃ eh dr br sc,
      vs = { version := .electra
           , electra := some (genesisStateOf cfg ext shape (genesisBlockOf sfb blk)
               eh dr br sc) } := by
  unfold BuildState at h
  by_cases h32 : 32 < (genesisBlockOf sfb blk).extra.length
  · rw [if_pos h32] at h
    simp at h
  · rw [if_neg h32] at h
    cases hw : (genesisBlockOf sfb blk).withdrawals with
    | none =>
      simp only [hw] at h
      exact buildStateTransactions_ok cfg ext shape _ _ _ vs h
    | some ws =>
      simp only [hw] at h
      cases hwr : ext.computeWithdrawalsRoot ws with
      | error e => simp [hwr] at h
      | ok wr =>
        simp only [hwr] at h
        exact buildStateTransactions_ok cfg ext shape _ _ _ vs h

/-- C7: the genesis time of every successfully built state equals the
    configured MIN_GENESIS_TIME plus the configured GENESIS_DELAY (both with
    their defaults, the sum taken as a uint64), except that a zero or unset
    MIN_GENESIS_TIME is replaced by the source block's timestamp. -/
theorem genesis_time_resolution (cfg : Config) (ext : BuilderExt) (shape : HeaderShape)
    (sfb : Option Block) (blk : Block) (vs : VersionedBeaconState) (st : ElectraState)
    (h : (BuildState cfg ext shape sfb blk).1 = .ok vs)
    (hst : vs.electra = some st) :
    st.genesisTime =
      ((if cfg.getUintDefault "MIN_GENESIS_TIME" 0 = 0 then (genesisBlockOf sfb blk).time
        else cfg.getUintDefault "MIN_GENESIS_TIME" 0) +
       cfg.getUintDefault "GENESIS_DELAY" 604800) % 2 ^ 64 := by
  obtain ⟨eh, dr, br, sc, rfl⟩ := BuildState_ok cfg ext shape sfb blk vs h
  simp at hst
  subst hst
  rfl

/-- C8: every successfully built state sizes its histories by
    SLOTS_PER_HISTORICAL_ROOT, its slashing vector by
    EPOCHS_PER_SLASHINGS_VECTOR, and its participation flags and inactivity
    scores by the validator count. -/
theorem collection_size_invariants (cfg : Config) (ext : BuilderExt) (shape : HeaderShape)
    (sfb : Option Block) (blk : Block) (vs : VersionedBeaconState) (st : ElectraState)
    (h : (BuildState cfg ext shape sfb blk).1 = .ok vs)
    (hst : vs.electra = some st) :
    st.blockRoots.length = cfg.getUintDefault "SLOTS_PER_HISTORICAL_ROOT" 8192 ∧
    st.stateRoots.length = cfg.getUintDefault "SLOTS_PER_HISTORICAL_ROOT" 8192 ∧
    st.slashings.length = cfg.getUintDefault "EPOCHS_PER_SLASHINGS_VECTOR" 8192 ∧
    st.previousEpochParticipation.length = st.validators.length ∧
    st.currentEpochParticipation.length = st.validators.length ∧
    st.inactivityScores.length = st.validators.length := by
  obtain ⟨eh, dr, br, sc, rfl⟩ := BuildState_ok cfg ext shape sfb blk vs h
  simp at hst
  subst hst
  refine ⟨?_, ?_, ?_, ?_, ?_, ?_⟩ <;> simp [genesisStateOf]

/-- A fully valid zero block: empty extra data, no withdrawals, both
    blob-gas fields present. -/
def blockOk : Block :=
  { blockMissingBlobGas with blobGasUsed := some 0 }

/-- The state the zero build produces. -/
def vsExpected : VersionedBeaconState :=
  { version := .electra
  , electra := some (genesisStateOf cfgEmpty extOk (none, none) blockOk
      (execHeaderOf blockOk zeroRoot zeroRoot 0 0) zeroRoot zeroRoot []) }

/-- Witness for C7 at the concrete zero build: MIN_GENESIS_TIME is unset and
    the block timestamp is 0, so genesis time is the default delay 604800. -/
theorem genesis_time_resolution_witness :
    ∃ st, vsExpected.electra = some st ∧ st.genesisTime = 604800 := by
  have h := genesis_time_resolution cfgEmpty extOk (none, none) none blockOk vsExpected
    (genesisStateOf cfgEmpty extOk (none, none) blockOk
      (execHeaderOf blockOk zeroRoot zeroRoot 0 0) zeroRoot zeroRoot []) rfl rfl
  exact ⟨_, rfl, by rw [h]; decide⟩

/-- Witness for C8 at the concrete zero build: the default sizes 8192 and
    the zero-validator count are realized. -/
theorem collection_size_invariants_witness :
    ∃ st, vsExpected.electra = some st ∧
      st.blockRoots.length = 8192 ∧ st.slashings.length = 8192 ∧
      st.previousEpochParticipation.length = st.validators.length := by
  have h := collection_size_invariants cfgEmpty extOk (none, none) none blockOk vsExpected
    (genesisStateOf cfgEmpty extOk (none, none) blockOk
      (execHeaderOf blockOk zeroRoot zeroRoot 0 0) zeroRoot zeroRoot []) rfl rfl
  refine ⟨_, rfl, ?_, ?_, h.2.2.2.1⟩
  · rw [h.1]; decide
  · rw [h.2.2.1]; decide

/-- C9: Serialize rejects every non-electra version tag with the
    unsupported-version error whatever the requested format; with the
    electra tag it rejects every format other than SSZ and JSON, and for
    SSZ and JSON it returns exactly the external codec's bytes or error
    (the advisory size diagnostics do not alter the result). -/
theorem serializer_contract (ext : SerializerExt) (state : VersionedBeaconState)
    (ct : ContentType) :
    (state.version ≠ DataVersion.electra →
      Serialize ext state ct = .error (unsupportedVersionMsg state.version)) ∧
    (state.version = DataVersion.electra →
      (∀ cname, ct = .otherContent cname →
        Serialize ext state ct = .error (unsupportedContentTypeMsg cname)) ∧
      Serialize ext state .ssz = ext.marshalStateSSZ state.electra ∧
      Serialize ext state .json = ext.marshalStateJSON state.electra) := by
  constructor
  · intro hv
    unfold Serialize
    rw [if_pos hv]
  · intro hv
    refine ⟨fun cname hct => ?_, ?_, ?_⟩
    · subst hct
      unfold Serialize
      rw [if_neg (by simp [hv])]
    · unfold Serialize
      rw [if_neg (by simp [hv])]
      cases hm : ext.marshalStateSSZ state.electra <;> simp [hm]
    · unfold Serialize
      rw [if_neg (by simp [hv])]

/-- A codec whose encoders return empty byte strings. -/
def extSerTrivial : SerializerExt :=
  { marshalStateSSZ := fun _ => .ok [], marshalStateJSON := fun _ => .ok [] }

/-- Witness for C9 at concrete inputs: a deneb-tagged state is rejected by
    name regardless of format, an electra-tagged state with an alien format
    is rejected by format, and SSZ delegation returns the codec's bytes. -/
theorem serializer_contract_witness :
    Serialize extSerTrivial { version := .deneb, electra := none } .ssz =
      .error "unsupported version: deneb" ∧
    Serialize extSerTrivial { version := .electra, electra := none }
      (.otherContent "event-stream") =
      .error "unsupported content type: event-stream" ∧
    Serialize extSerTrivial { version := .electra, electra := none } .ssz = .ok [] := by
  refine ⟨?_, ?_, ?_⟩
  · have h := (serializer_contract extSerTrivial { version := .deneb, electra := none }
      .ssz).1 (by decide)
    rw [h]
    rfl
  · have h := ((serializer_contract extSerTrivial { version := .electra, electra := none }
      (.otherContent "event-stream")).2 rfl).1 "event-stream" rfl
    rw [h]
    rfl
  · have h := ((serializer_contract extSerTrivial { version := .electra, electra := none }
      .ssz).2 rfl).2.1
    rw [h]
    rfl

end BeaconGenesis
